import Mathlib

/-!
Verification of the SkinGuide mobile client core: the scan-flow state
machine (App.tsx), the label encoder and submission logic
(LabelScreen.tsx), the consent store (ConsentScreen.tsx), and the API
client header construction (api.ts).  Each definition is a shallow
embedding of the corresponding TypeScript source.
-/

namespace SkinGuide

/-! ## Label encoder (LabelScreen.tsx) -/

/-- The closed set of appearance attributes (`ATTRS` keys in LabelScreen.tsx). -/
inductive AttributeKey
  | uneven_tone_appearance
  | hyperpigmentation_appearance
  | redness_appearance
  | texture_roughness_appearance
  | shine_oiliness_appearance
  | pore_visibility_appearance
  | fine_lines_appearance
  | dryness_flaking_appearance
  deriving DecidableEq, Repr

/-- The source string for an attribute key, as used in the JSON payload. -/
def attrKeyName : AttributeKey → String
  | .uneven_tone_appearance => "uneven_tone_appearance"
  | .hyperpigmentation_appearance => "hyperpigmentation_appearance"
  | .redness_appearance => "redness_appearance"
  | .texture_roughness_appearance => "texture_roughness_appearance"
  | .shine_oiliness_appearance => "shine_oiliness_appearance"
  | .pore_visibility_appearance => "pore_visibility_appearance"
  | .fine_lines_appearance => "fine_lines_appearance"
  | .dryness_flaking_appearance => "dryness_flaking_appearance"

/-- The `ATTRS` list of LabelScreen.tsx, in source order. -/
def ATTRS : List AttributeKey :=
  [ .uneven_tone_appearance
  , .hyperpigmentation_appearance
  , .redness_appearance
  , .texture_roughness_appearance
  , .shine_oiliness_appearance
  , .pore_visibility_appearance
  , .fine_lines_appearance
  , .dryness_flaking_appearance ]

/-- Ordinal severity chosen by the user (`type Severity` in LabelScreen.tsx). -/
inductive Severity
  | none
  | mild
  | moderate
  | severe
  deriving DecidableEq, Repr

/-- `sevToValue` from LabelScreen.tsx: `none` yields no value (omission from
the sparse labels), `mild` 0.33, `moderate` 0.66, `severe` 1.0.  JS number
literals are represented exactly as rationals. -/
def sevToValue : Severity → Option ℚ
  | .none => Option.none
  | .mild => some (0.33 : ℚ)
  | .moderate => some (0.66 : ℚ)
  | .severe => some (1 : ℚ)

/-- The `sparseLabels` memo of LabelScreen.tsx: iterate over `ATTRS`, keep
the pair `(a, v)` exactly when `sevToValue (sev a)` produced a value. -/
def sparseLabels (sev : AttributeKey → Severity) : List (AttributeKey × ℚ) :=
  ATTRS.filterMap (fun a => (sevToValue (sev a)).map (fun v => (a, v)))

/-- Every attribute key occurs in `ATTRS`. -/
theorem mem_ATTRS (a : AttributeKey) : a ∈ ATTRS := by
  cases a <;> simp [ATTRS]

/-- Membership in the sparse encoding is exactly governed by `sevToValue`. -/
theorem mem_sparseLabels (sev : AttributeKey → Severity) (a : AttributeKey) (v : ℚ) :
    (a, v) ∈ sparseLabels sev ↔ sevToValue (sev a) = some v := by
  constructor
  · intro h
    rcases List.mem_filterMap.mp h with ⟨b, _, hb⟩
    rcases Option.map_eq_some'.mp hb with ⟨w, hw, hbw⟩
    cases hbw
    simpa using hw
  · intro h
    exact List.mem_filterMap.mpr ⟨a, mem_ATTRS a, by simp [h]⟩

/-! ## Data model (state.ts, App.tsx) -/

/-- `Consent` from state.ts: two independent opt-in flags. -/
structure Consent where
  store_progress_images : Bool
  donate_for_improvement : Bool
  deriving DecidableEq, Repr

/-- The fields of the service's analysis result that the controller reads
(App.tsx reads `result?.roi_sha256`; ResultsScreen renders the rest).
`roi_sha256` is the optional donated-ROI content identifier. -/
structure AnalysisResult where
  disclaimer : String
  model_version : String
  stored_for_progress : Bool
  roi_sha256 : Option String
  deriving DecidableEq, Repr

/-- The `Screen` union type of App.tsx (labeled variant). -/
inductive Screen
  | consent
  | camera
  | review
  | results
  | settings
  | label
  deriving DecidableEq, Repr

/-- The controller state held at the top of App.tsx once a session exists:
the current screen, the captured-photo reference (`photoUri`) and the
current analysis result (`result`).  The screen tree is only rendered
after `st.sessionId` is non-null, so `sessionId` is a plain string here. -/
structure AppState where
  sessionId : String
  consent : Consent
  screen : Screen
  photoUri : Option String
  result : Option AnalysisResult
  deriving DecidableEq, Repr

/-- `roiSha` in App.tsx: `result?.roi_sha256 ?? null`, recomputed on every
render from the current `result`. -/
def roiSha (st : AppState) : Option String :=
  st.result.bind (fun r => r.roi_sha256)

/-- JS truthiness of a nullable string: null/absent and the empty string
are falsy, every other string is truthy. -/
def truthyStr : Option String → Bool
  | some t => if t = "" then false else true
  | Option.none => false

/-- `canLabel` as passed to ResultsScreen in App.tsx: `!!roiSha`, i.e. the
JS truthiness of `roiSha` — false when `roiSha` is null and also when it
is the empty string. -/
def canLabel (st : AppState) : Bool :=
  truthyStr (roiSha st)

/-- User/network events the App handlers respond to.  Each corresponds to a
callback wired in App.tsx. -/
inductive Ev
  | continueConsent
  | captured (uri : String)
  | retake
  | analyzed (r : AnalysisResult)
  | newScan
  | pressLabel
  | labelBack
  | labelDone
  | pressSettings
  | settingsBack

/-- The scan-flow step function, read off the App.tsx handlers.  An event's
handler can only fire when its screen is rendered (the JSX conditions
`screen === "review" && photoUri`, `screen === "results" && result`,
`screen === "label" && roiSha`, ...), and the Label button is
`disabled={!canLabel}`, so `pressLabel` is guarded by `canLabel` (the JS
truthiness of the current `roiSha`), and the label screen's own callbacks
by the truthiness of `roiSha` as well.  Note: the retake handler is
`() => setScreen("camera")` only — it does not clear `photoUri`. -/
def step (st : AppState) : Ev → AppState
  | .continueConsent =>
      if st.screen = Screen.consent then { st with screen := Screen.camera } else st
  | .captured uri =>
      if st.screen = Screen.camera then
        { st with photoUri := some uri, screen := Screen.review }
      else st
  | .retake =>
      if st.screen = Screen.review ∧ st.photoUri.isSome then
        { st with screen := Screen.camera }
      else st
  | .analyzed r =>
      if st.screen = Screen.review ∧ st.photoUri.isSome then
        { st with result := some r, screen := Screen.results }
      else st
  | .newScan =>
      if st.screen = Screen.results ∧ st.result.isSome then
        { st with result := Option.none, photoUri := Option.none, screen := Screen.camera }
      else st
  | .pressLabel =>
      if st.screen = Screen.results ∧ st.result.isSome ∧ canLabel st = true then
        { st with screen := Screen.label }
      else st
  | .labelBack =>
      if st.screen = Screen.label ∧ truthyStr (roiSha st) = true then
        { st with screen := Screen.results }
      else st
  | .labelDone =>
      if st.screen = Screen.label ∧ truthyStr (roiSha st) = true then
        { st with screen := Screen.results }
      else st
  | .pressSettings => { st with screen := Screen.settings }
  | .settingsBack =>
      if st.screen = Screen.settings then { st with screen := Screen.consent } else st

/-! ## Label submission (LabelScreen.tsx, api.ts labelSample) -/

/-- Fitzpatrick skin-tone enum from LabelScreen.tsx. -/
inductive Fitzpatrick
  | I | II | III | IV | V | VI
  deriving DecidableEq, Repr

/-- The source string of a Fitzpatrick value. -/
def fitzName : Fitzpatrick → String
  | .I => "I"
  | .II => "II"
  | .III => "III"
  | .IV => "IV"
  | .V => "V"
  | .VI => "VI"

/-- Age-band enum from LabelScreen.tsx. -/
inductive AgeBand
  | lt18 | b18to24 | b25to34 | b35to44 | b45to54 | b55to64 | b65plus
  deriving DecidableEq, Repr

/-- The source string of an age band. -/
def ageBandName : AgeBand → String
  | .lt18 => "<18"
  | .b18to24 => "18-24"
  | .b25to34 => "25-34"
  | .b35to44 => "35-44"
  | .b45to54 => "45-54"
  | .b55to64 => "55-64"
  | .b65plus => "65+"

/-- The payload object built inside `submit` in LabelScreen.tsx.  The two
demographic fields are `fitzpatrick ?? undefined` / `ageBand ?? undefined`
in the source: an unselected value (null) becomes an undefined-valued
property, represented here as `Option.none`. -/
structure LabelPayload where
  roi_sha256 : String
  labels : List (AttributeKey × ℚ)
  fitzpatrick : Option Fitzpatrick
  age_band : Option AgeBand
  deriving DecidableEq, Repr

/-- Parsed body of a `/v1/label` response (`{stored, reason?}`). -/
structure LabelResponse where
  stored : Bool
  reason : Option String
  deriving DecidableEq, Repr

/-- An HTTP response to the label call as `labelSample` sees it: the `ok`
status flag, the parsed JSON body, and the raw body text (read on error). -/
structure LabelHttpResponse where
  ok : Bool
  body : LabelResponse
  text : String
  deriving DecidableEq, Repr

/-- `labelSample` from api.ts: `if (!r.ok) throw new Error(await r.text());
return r.json()`.  A non-success status is raised as an error carrying the
raw body text; a success status returns the parsed body unchanged. -/
def labelSample (r : LabelHttpResponse) : Except String LabelResponse :=
  if r.ok then Except.ok r.body else Except.error r.text

/-- Behaviour of the network during one submit: either the fetch resolves
with a response, or the fetch itself rejects with a message. -/
inductive NetBehavior
  | respond (r : LabelHttpResponse)
  | netFail (msg : String)

/-- Local state of LabelScreen when submit is triggered: the ROI id prop,
the severity selections, the optional demographics, and the busy flag. -/
structure LabelScreenState where
  roiSha256 : String
  sev : AttributeKey → Severity
  fitzpatrick : Option Fitzpatrick
  ageBand : Option AgeBand
  busy : Bool

/-- The payload `submit` passes to `labelSample`. -/
def mkPayload (st : LabelScreenState) : LabelPayload :=
  { roi_sha256 := st.roiSha256
  , labels := sparseLabels st.sev
  , fitzpatrick := st.fitzpatrick
  , age_band := st.ageBand }

/-- The observable outcome of one run of `submit` in LabelScreen.tsx:
the label calls issued, the alert shown (title, message), whether
`onDone` fired (i.e. the controller navigated back to Results), and the
busy flag when the handler has finished. -/
structure SubmitResult where
  calls : List LabelPayload
  alert : Option (String × String)
  done : Bool
  busyEnd : Bool
  deriving DecidableEq, Repr

/-- `submit` from LabelScreen.tsx.  Two local precondition checks return
before any network activity and before `setBusy(true)`; otherwise the call
is issued inside `try`/`catch`/`finally`, with `setBusy(false)` in the
`finally`, `onDone` fired only on `resp.stored`, and the `stored:false`
branch showing the reason (`resp?.reason ?? "unknown"`). -/
def submit (st : LabelScreenState) (net : NetBehavior) : SubmitResult :=
  if st.roiSha256 = "" then
    { calls := []
    , alert := some ("Missing ROI id", "Run a scan first, then label it.")
    , done := false, busyEnd := st.busy }
  else if sparseLabels st.sev = [] then
    { calls := []
    , alert := some ("Nothing selected", "Pick at least one attribute severity, or go back.")
    , done := false, busyEnd := st.busy }
  else
    match net with
    | .netFail msg =>
        { calls := [mkPayload st], alert := some ("Error", msg)
        , done := false, busyEnd := false }
    | .respond r =>
        match labelSample r with
        | .error msg =>
            { calls := [mkPayload st], alert := some ("Error", msg)
            , done := false, busyEnd := false }
        | .ok body =>
            if body.stored then
              { calls := [mkPayload st]
              , alert := some ("Thanks!", "Label saved for model improvement.")
              , done := true, busyEnd := false }
            else
              { calls := [mkPayload st]
              , alert := some ("Not saved",
                  "Reason: " ++ body.reason.getD "unknown" ++
                    "\n\n(Labels require opt-in donation consent and a donated sample.)")
              , done := false, busyEnd := false }

/-- The submit Pressable in LabelScreen.tsx carries `disabled={busy}`:
a press while busy has no effect at all. -/
def pressSubmit (st : LabelScreenState) (net : NetBehavior) : SubmitResult :=
  if st.busy then
    { calls := [], alert := Option.none, done := false, busyEnd := st.busy }
  else submit st net

/-! ## Camera, review and settings screens (CameraScreen.tsx, SettingsScreen.tsx) -/

/-- Behaviour of `takePictureAsync`: it resolves with a photo (whose `uri`
may be absent) or the promise rejects. -/
inductive CaptureBehavior
  | photo (uri : Option String)
  | reject (msg : String)

/-- Local state of CameraScreen relevant to `snap`. -/
structure CameraState where
  busy : Bool
  deriving DecidableEq, Repr

/-- Observable outcome of one invocation of `snap`: the busy flag when the
handler has finished (or been abandoned by an exception), the uri passed
to `onCaptured` if any, and whether an exception escaped. -/
structure SnapResult where
  busyEnd : Bool
  capturedUri : Option String
  threw : Bool
  deriving DecidableEq, Repr

/-- `snap` from CameraScreen.tsx: `if (busy) return; setBusy(true);
const photo = await takePictureAsync(...); setBusy(false); if (photo?.uri)
onCaptured(photo.uri);`.  There is no try/finally: when the capture
promise rejects, execution never reaches `setBusy(false)` and the busy
flag stays `true`. -/
def snap (st : CameraState) (cam : CaptureBehavior) : SnapResult :=
  if st.busy then
    { busyEnd := st.busy, capturedUri := Option.none, threw := false }
  else
    match cam with
    | .photo u => { busyEnd := false, capturedUri := u, threw := false }
    | .reject _ => { busyEnd := true, capturedUri := Option.none, threw := true }

/-- Behaviour of `centerCropToJpeg` (ImageManipulator): resolves with a uri
or rejects. -/
inductive ManipBehavior
  | ok (uri : String)
  | reject (msg : String)

/-- Behaviour of the `analyze` call: success with a result, a non-success
HTTP status (analyze throws the body text), or a fetch rejection. -/
inductive AnalyzeBehavior
  | ok (r : AnalysisResult)
  | httpFail (msg : String)
  | fetchFail (msg : String)

/-- Observable outcome of one run of `run` in ReviewScreen: analyze calls
issued, the result passed to `onResult` if any, whether an exception
escaped the handler, and the final busy flag. -/
structure RunResult where
  analyzeCalls : Nat
  delivered : Option AnalysisResult
  threw : Bool
  busyEnd : Bool
  deriving DecidableEq, Repr

/-- `run` from ReviewScreen (CameraScreen.tsx): `setBusy(true); try
{ roiUri = await centerCropToJpeg(...); r = await analyze(...);
onResult(r); } finally { setBusy(false); }`.  There is no catch — an
exception escapes the handler — but the `finally` always clears busy. -/
def run (m : ManipBehavior) (a : AnalyzeBehavior) : RunResult :=
  match m with
  | .reject _ => { analyzeCalls := 0, delivered := Option.none, threw := true, busyEnd := false }
  | .ok _ =>
      match a with
      | .ok r => { analyzeCalls := 1, delivered := some r, threw := false, busyEnd := false }
      | .httpFail _ => { analyzeCalls := 1, delivered := Option.none, threw := true, busyEnd := false }
      | .fetchFail _ => { analyzeCalls := 1, delivered := Option.none, threw := true, busyEnd := false }

/-- The Analyze Pressable in ReviewScreen: `onPress={run}` with no
`disabled` attribute, and `run` itself has no busy guard — a press always
invokes `run`, which immediately sets busy and issues a new analyze call.
The state tracks how many analyze calls are currently in flight. -/
structure ReviewFlight where
  busy : Bool
  inFlight : Nat
  deriving DecidableEq, Repr

/-- One press of Analyze: always starts another `run` (no guard). -/
def pressAnalyze (s : ReviewFlight) : ReviewFlight :=
  { busy := true, inFlight := s.inFlight + 1 }

/-- Behaviour of the `deleteProgress` call. -/
inductive DeleteBehavior
  | okEmpty
  | httpFail (msg : String)
  | fetchFail (msg : String)

/-- Observable outcome of one run of `wipe` in SettingsScreen. -/
structure WipeResult where
  deleteCalls : Nat
  alerted : Bool
  threw : Bool
  busyEnd : Bool
  deriving DecidableEq, Repr

/-- `wipe` from SettingsScreen.tsx: `setBusy(true); try { await
deleteProgress(...); alert(...); } finally { setBusy(false); }`.  No catch,
but the `finally` always clears busy. -/
def wipe (b : DeleteBehavior) : WipeResult :=
  match b with
  | .okEmpty => { deleteCalls := 1, alerted := true, threw := false, busyEnd := false }
  | .httpFail _ => { deleteCalls := 1, alerted := false, threw := true, busyEnd := false }
  | .fetchFail _ => { deleteCalls := 1, alerted := false, threw := true, busyEnd := false }

/-- The Delete Pressable in SettingsScreen: `onPress={wipe}` with no
`disabled` attribute and no busy guard in `wipe` — a press always starts
another `wipe`, issuing a new deleteProgress call. -/
structure SettingsFlight where
  busy : Bool
  inFlight : Nat
  deriving DecidableEq, Repr

/-- One press of Delete stored progress: always starts another `wipe`. -/
def pressWipe (s : SettingsFlight) : SettingsFlight :=
  { busy := true, inFlight := s.inFlight + 1 }

/-! ## Consent store (ConsentScreen.tsx) -/

/-- The observable actions of `save` in ConsentScreen.tsx, in order:
`props.onChangeConsent(next)` (the optimistic local update) and then the
`upsertConsent` network call whose body is `next`. -/
inductive ConsentAction
  | localUpdate (c : Consent)
  | upsertCall (c : Consent)
  deriving DecidableEq, Repr

/-- `save` from ConsentScreen.tsx: apply the local update first, then issue
exactly one upsert call carrying the same full `Consent` value. -/
def save (next : Consent) : List ConsentAction :=
  [ConsentAction.localUpdate next, ConsentAction.upsertCall next]

/-- The `onValueChange` handler of the store-progress Switch:
`save({ ...consent, store_progress_images: v })`. -/
def toggleStoreProgress (consent : Consent) (v : Bool) : List ConsentAction :=
  save { consent with store_progress_images := v }

/-- The `onValueChange` handler of the donate Switch:
`save({ ...consent, donate_for_improvement: v })`. -/
def toggleDonate (consent : Consent) (v : Bool) : List ConsentAction :=
  save { consent with donate_for_improvement := v }

/-- The upsert-call bodies within a list of consent actions. -/
def upsertBodies (acts : List ConsentAction) : List Consent :=
  acts.filterMap (fun a => match a with
    | .upsertCall c => some c
    | .localUpdate _ => Option.none)

/-! ## API client header construction (api.ts, both variants) -/

/-- The `Auth` record of the auth-aware api.ts variant. -/
structure Auth where
  sessionId : String
  accessToken : Option String
  deviceToken : String
  deriving DecidableEq, Repr

/-- `authHeaders` from api.ts: always `X-Device-Token`, plus
`Authorization: Bearer <token>` when `auth.accessToken` is truthy
(JS truthiness: absent or the empty string are falsy). -/
def authHeaders (auth : Auth) : List (String × String) :=
  ("X-Device-Token", auth.deviceToken) ::
    (match auth.accessToken with
     | some t => if t = "" then [] else [("Authorization", "Bearer " ++ t)]
     | Option.none => [])

/-- Headers of the auth-aware `upsertConsent`:
`{ "Content-Type": "application/json", ...authHeaders(auth) }`. -/
def upsertConsentHeaders (auth : Auth) : List (String × String) :=
  ("Content-Type", "application/json") :: authHeaders auth

/-- Headers of the auth-aware `analyze`: `authHeaders(auth)` only. -/
def analyzeHeaders (auth : Auth) : List (String × String) :=
  authHeaders auth

/-- Headers of `labelSample`:
`{ "Content-Type": "application/json", ...authHeaders(auth) }`. -/
def labelSampleHeaders (auth : Auth) : List (String × String) :=
  ("Content-Type", "application/json") :: authHeaders auth

/-- Headers of the legacy api.ts variant's `upsertConsent`: only
`Content-Type` — no device token, no authorization. -/
def legacyUpsertConsentHeaders : List (String × String) :=
  [("Content-Type", "application/json")]

/-- Headers of the legacy api.ts variant's `analyze`: the fetch options
carry no `headers` key at all. -/
def legacyAnalyzeHeaders : List (String × String) := []

/-- Headers of `deleteProgress` (it exists only in the legacy api.ts
variant): the fetch options are `{ method: "POST" }` — no headers. -/
def deleteProgressHeaders : List (String × String) := []

/-! ## JSON serialization of the label payload (JSON.stringify semantics) -/

/-- A JS value as far as top-level JSON serialization of the label payload
is concerned.  `undef` stands for JavaScript `undefined`, which
`JSON.stringify` drops from objects. -/
inductive JsValue
  | undef
  | str (s : String)
  | num (q : ℚ)
  | obj (fields : List (String × ℚ))

/-- Whether a JS value is `undefined`. -/
def JsValue.isUndef : JsValue → Bool
  | .undef => true
  | _ => false

/-- The object literal built inside `submit`:
`{ roi_sha256, labels, fitzpatrick: fitzpatrick ?? undefined,
age_band: ageBand ?? undefined }`. -/
def payloadObject (p : LabelPayload) : List (String × JsValue) :=
  [ ("roi_sha256", JsValue.str p.roi_sha256)
  , ("labels", JsValue.obj (p.labels.map (fun l => (attrKeyName l.1, l.2))))
  , ("fitzpatrick",
      match p.fitzpatrick with
      | some f => JsValue.str (fitzName f)
      | Option.none => JsValue.undef)
  , ("age_band",
      match p.age_band with
      | some a => JsValue.str (ageBandName a)
      | Option.none => JsValue.undef) ]

/-- `JSON.stringify` on the payload object: properties whose value is
`undefined` are omitted from the serialized body. -/
def serializedPayload (p : LabelPayload) : List (String × JsValue) :=
  (payloadObject p).filter (fun f => !f.2.isUndef)

/-! ## Theorems -/

/-- C1 counterexample: at `roi_sha256 = some ""` — a non-null string — the
Label button is disabled (`!!roiSha` is false for the empty string in JS)
and pressing label does not transition to `Label`, refuting the claim that
any non-null `roi_sha256` makes `Label` reachable from `Results`. -/
theorem c1_counterexample :
    (step { sessionId := "s", consent := ⟨false, false⟩, screen := Screen.results
          , photoUri := Option.none
          , result := some { disclaimer := "d", model_version := "m"
                           , stored_for_progress := false, roi_sha256 := some "" } }
       Ev.pressLabel).screen ≠ Screen.label := by
  simp [step, canLabel, roiSha, truthyStr]

/-- C1 amended: `Label` is reachable from `Results` if and only if the
current `AnalysisResult.roi_sha256` is truthy — non-null and non-empty
(`!!roiSha`): pressing label in `Results` with a truthy `roi_sha256`
transitions to `Label`, and otherwise (null, absent or `""`) it does not;
no event reaches `Label` except from `Results` with `canLabel` true of the
current state; and new-scan clears the result, after which `canLabel` is
false — the guard is recomputed from the current result, never cached. -/
theorem c1_amended_label_guard :
    (∀ (st : AppState) (r : AnalysisResult),
        st.screen = Screen.results → st.result = some r →
        ((step st Ev.pressLabel).screen = Screen.label ↔ truthyStr r.roi_sha256 = true))
    ∧ (∀ (st : AppState) (e : Ev),
        st.screen ≠ Screen.label → (step st e).screen = Screen.label →
        st.screen = Screen.results ∧ canLabel st = true)
    ∧ (∀ st : AppState, st.screen = Screen.results → st.result.isSome = true →
        (step st Ev.newScan).result = Option.none
        ∧ canLabel (step st Ev.newScan) = false) := by
  refine ⟨?_, ?_, ?_⟩
  · intro st r h1 h2
    by_cases hr : truthyStr r.roi_sha256 = true
    · simp [step, canLabel, roiSha, h1, h2, hr]
    · simp [step, canLabel, roiSha, h1, h2, hr]
  · intro st e hne hl
    cases e <;> simp only [step] at hl <;>
      (try split at hl) <;> simp_all
  · intro st h1 h2
    constructor
    · simp [step, h1, h2]
    · simp [step, canLabel, roiSha, truthyStr, h1, h2]

/-- Witness for C1 (amended) at a concrete results state with
`roi_sha256 = "abc"`. -/
theorem c1_amended_label_guard_witness :
    (step { sessionId := "s", consent := ⟨false, false⟩, screen := Screen.results
          , photoUri := Option.none
          , result := some { disclaimer := "d", model_version := "m"
                           , stored_for_progress := false
                           , roi_sha256 := some "abc" } }
       Ev.pressLabel).screen = Screen.label
    ∧ (step { sessionId := "s", consent := ⟨false, false⟩, screen := Screen.results
            , photoUri := Option.none
            , result := some { disclaimer := "d", model_version := "m"
                             , stored_for_progress := false
                             , roi_sha256 := some "abc" } }
        Ev.newScan).result = Option.none := by
  have h1 := c1_amended_label_guard.1
    { sessionId := "s", consent := ⟨false, false⟩, screen := Screen.results
    , photoUri := Option.none
    , result := some { disclaimer := "d", model_version := "m"
                     , stored_for_progress := false, roi_sha256 := some "abc" } }
    { disclaimer := "d", model_version := "m"
    , stored_for_progress := false, roi_sha256 := some "abc" }
    rfl rfl
  have h2 := c1_amended_label_guard.2.2
    { sessionId := "s", consent := ⟨false, false⟩, screen := Screen.results
    , photoUri := Option.none
    , result := some { disclaimer := "d", model_version := "m"
                     , stored_for_progress := false, roi_sha256 := some "abc" } }
    rfl rfl
  exact ⟨h1.mpr (by simp [truthyStr]), h2.1⟩

/-- C2: the label encoding maps `none` to omission (never present, in
particular never present as 0), `mild` to exactly 0.33, `moderate` to
exactly 0.66, `severe` to exactly 1.0, and a severity map that is `none`
everywhere encodes to the empty mapping. -/
theorem c2_label_encoding :
    (sevToValue Severity.none = Option.none)
    ∧ (sevToValue Severity.mild = some (0.33 : ℚ))
    ∧ (sevToValue Severity.moderate = some (0.66 : ℚ))
    ∧ (sevToValue Severity.severe = some (1 : ℚ))
    ∧ (∀ (sev : AttributeKey → Severity) (a : AttributeKey) (v : ℚ),
        (a, v) ∈ sparseLabels sev ↔ sevToValue (sev a) = some v)
    ∧ (∀ (sev : AttributeKey → Severity) (a : AttributeKey),
        sev a = Severity.none → ∀ v : ℚ, (a, v) ∉ sparseLabels sev)
    ∧ (∀ sev : AttributeKey → Severity,
        (∀ a, sev a = Severity.none) → sparseLabels sev = []) := by
  refine ⟨rfl, rfl, rfl, rfl, mem_sparseLabels, ?_, ?_⟩
  · intro sev a ha v hmem
    rw [mem_sparseLabels, ha] at hmem
    simp [sevToValue] at hmem
  · intro sev h
    refine List.filterMap_eq_nil_iff.mpr (fun a _ => ?_)
    simp [h a, sevToValue]

/-- Witness for C2: a mild selection is present at exactly 0.33, and the
all-none map encodes to the empty mapping. -/
theorem c2_label_encoding_witness :
    ((AttributeKey.redness_appearance, (0.33 : ℚ))
        ∈ sparseLabels (fun _ => Severity.mild))
    ∧ sparseLabels (fun _ => Severity.none) = [] :=
  ⟨(c2_label_encoding.2.2.2.2.1 _ _ _).mpr rfl,
   c2_label_encoding.2.2.2.2.2.2 _ (fun _ => rfl)⟩

/-- C3: label submission is rejected locally — no call issued, no
transition, busy untouched — exactly when the ROI id is empty or the
encoded sparse mapping is empty, and the rejection is one of the two
user-facing guidance alerts, not an error. -/
theorem c3_local_rejection :
    ∀ (st : LabelScreenState) (net : NetBehavior),
      ((submit st net).calls = [] ↔ (st.roiSha256 = "" ∨ sparseLabels st.sev = []))
      ∧ ((st.roiSha256 = "" ∨ sparseLabels st.sev = []) →
          (submit st net).done = false
          ∧ (submit st net).busyEnd = st.busy
          ∧ ((submit st net).alert =
                some ("Missing ROI id", "Run a scan first, then label it.")
             ∨ (submit st net).alert =
                some ("Nothing selected", "Pick at least one attribute severity, or go back."))) := by
  intro st net
  by_cases h1 : st.roiSha256 = ""
  · simp [submit, h1]
  · by_cases h2 : sparseLabels st.sev = []
    · simp [submit, h1, h2]
    · cases net with
      | netFail msg => simp [submit, h1, h2]
      | respond r =>
          rcases hls : labelSample r with msg | body
          · simp [submit, h1, h2, hls]
          · by_cases hs : body.stored
            · simp [submit, h1, h2, hls, hs]
            · simp [submit, h1, h2, hls, hs]

/-- Witness for C3: with an empty ROI id, no call is issued and no
transition happens. -/
theorem c3_local_rejection_witness :
    (submit { roiSha256 := "", sev := fun _ => Severity.mild
            , fitzpatrick := Option.none, ageBand := Option.none, busy := false }
       (NetBehavior.netFail "boom")).calls = []
    ∧ (submit { roiSha256 := "", sev := fun _ => Severity.mild
              , fitzpatrick := Option.none, ageBand := Option.none, busy := false }
        (NetBehavior.netFail "boom")).done = false := by
  have h := c3_local_rejection
    { roiSha256 := "", sev := fun _ => Severity.mild
    , fitzpatrick := Option.none, ageBand := Option.none, busy := false }
    (NetBehavior.netFail "boom")
  exact ⟨h.1.mpr (Or.inl rfl), (h.2 (Or.inl rfl)).1⟩

/-- C4: a success HTTP status with `stored:false` is not an error — the
controller stays in `Label` (`onDone` does not fire), exactly one call was
issued (no retry), and the reason from the response is displayed; and
`labelSample` raises an error exactly for non-success HTTP statuses. -/
theorem c4_stored_false_not_error :
    ∀ (st : LabelScreenState) (r : LabelHttpResponse),
      st.roiSha256 ≠ "" → sparseLabels st.sev ≠ [] →
      r.ok = true → r.body.stored = false →
      ((submit st (NetBehavior.respond r)).done = false
       ∧ (submit st (NetBehavior.respond r)).calls = [mkPayload st]
       ∧ (submit st (NetBehavior.respond r)).alert =
           some ("Not saved",
             "Reason: " ++ r.body.reason.getD "unknown" ++
               "\n\n(Labels require opt-in donation consent and a donated sample.)"))
      ∧ (∀ q : LabelHttpResponse, (∃ m, labelSample q = Except.error m) ↔ q.ok = false) := by
  intro st r h1 h2 hok hstored
  constructor
  · simp [submit, h1, h2, labelSample, hok, hstored]
  · intro q
    rcases hq : q.ok with _ | _ <;> simp [labelSample, hq]

/-- Witness for C4 at a concrete submission whose response is a success
status with `stored:false, reason:"not_donated"`. -/
theorem c4_stored_false_not_error_witness :
    (submit { roiSha256 := "abc", sev := fun _ => Severity.mild
            , fitzpatrick := Option.none, ageBand := Option.none, busy := false }
       (NetBehavior.respond
         { ok := true, body := { stored := false, reason := some "not_donated" }
         , text := "" })).done = false
    ∧ (submit { roiSha256 := "abc", sev := fun _ => Severity.mild
              , fitzpatrick := Option.none, ageBand := Option.none, busy := false }
        (NetBehavior.respond
          { ok := true, body := { stored := false, reason := some "not_donated" }
          , text := "" })).calls.length = 1 := by
  have h := c4_stored_false_not_error
    { roiSha256 := "abc", sev := fun _ => Severity.mild
    , fitzpatrick := Option.none, ageBand := Option.none, busy := false }
    { ok := true, body := { stored := false, reason := some "not_donated" }, text := "" }
    (by simp) (by simp [sparseLabels, ATTRS, sevToValue]) rfl rfl
  exact ⟨h.1.1, by rw [h.1.2.1]; rfl⟩

/-- C5 counterexample: `snap` in CameraScreen.tsx has no try/finally — when
`takePictureAsync` rejects after `setBusy(true)`, the handler finishes by
exception with the busy flag still `true`, so the claim that every listed
action clears its busy flag on completion is false for capture. -/
theorem c5_counterexample :
    (snap { busy := false } (CaptureBehavior.reject "camera failed")).threw = true
    ∧ (snap { busy := false } (CaptureBehavior.reject "camera failed")).busyEnd = true :=
  ⟨rfl, rfl⟩

/-- C5 amended: analyze (`run`), delete-progress (`wipe`) and label submit
(`submit`, whenever a call was actually issued) clear busy via `finally`
regardless of success or exception; capture (`snap`) clears busy only when
the capture promise resolves — on rejection the busy flag remains set. -/
theorem c5_amended_busy_release :
    (∀ (m : ManipBehavior) (a : AnalyzeBehavior), (run m a).busyEnd = false)
    ∧ (∀ b : DeleteBehavior, (wipe b).busyEnd = false)
    ∧ (∀ (st : LabelScreenState) (net : NetBehavior),
        (submit st net).calls ≠ [] → (submit st net).busyEnd = false)
    ∧ (∀ u : Option String,
        (snap { busy := false } (CaptureBehavior.photo u)).busyEnd = false)
    ∧ (∀ msg : String,
        (snap { busy := false } (CaptureBehavior.reject msg)).busyEnd = true) := by
  refine ⟨?_, ?_, ?_, fun u => rfl, fun msg => rfl⟩
  · intro m a
    cases m with
    | reject msg => rfl
    | ok uri => cases a <;> rfl
  · intro b
    cases b <;> rfl
  · intro st net hcalls
    by_cases h1 : st.roiSha256 = ""
    · simp [submit, h1] at hcalls
    · by_cases h2 : sparseLabels st.sev = []
      · simp [submit, h1, h2] at hcalls
      · cases net with
        | netFail msg => simp [submit, h1, h2]
        | respond r =>
            rcases hls : labelSample r with msg | body
            · simp [submit, h1, h2, hls]
            · by_cases hs : body.stored <;> simp [submit, h1, h2, hls, hs]

/-- Witness for C5 (amended) at a concrete issued submission. -/
theorem c5_amended_busy_release_witness :
    (submit { roiSha256 := "abc", sev := fun _ => Severity.severe
            , fitzpatrick := Option.none, ageBand := Option.none, busy := false }
       (NetBehavior.netFail "boom")).busyEnd = false :=
  c5_amended_busy_release.2.2.1
    { roiSha256 := "abc", sev := fun _ => Severity.severe
    , fitzpatrick := Option.none, ageBand := Option.none, busy := false }
    (NetBehavior.netFail "boom")
    (by simp [submit, sparseLabels, ATTRS, sevToValue])

/-- C6 counterexample: the Analyze Pressable in ReviewScreen has no
`disabled` attribute and `run` has no busy guard, so a second press while
the first analyze call is in flight issues a duplicate — two calls in
flight, refuting "at most one in-flight call per logical action". -/
theorem c6_counterexample :
    ¬ (pressAnalyze (pressAnalyze { busy := false, inFlight := 0 })).inFlight ≤ 1 := by
  decide

/-- C6 amended: only the label-submit trigger (Pressable `disabled={busy}`)
and the capture trigger (`if (busy) return`) enforce at most one in-flight
operation; the analyze and delete-progress triggers are not disabled while
busy and their handlers have no guard, so every press issues another call
even while one is in flight. -/
theorem c6_amended_single_flight :
    (∀ (st : LabelScreenState) (net : NetBehavior), st.busy = true →
        (pressSubmit st net).calls = [])
    ∧ (∀ cam : CaptureBehavior,
        (snap { busy := true } cam).capturedUri = Option.none
        ∧ (snap { busy := true } cam).threw = false)
    ∧ (∀ s : ReviewFlight, (pressAnalyze s).inFlight = s.inFlight + 1)
    ∧ (∀ s : SettingsFlight, (pressWipe s).inFlight = s.inFlight + 1) := by
  refine ⟨?_, ?_, fun s => rfl, fun s => rfl⟩
  · intro st net hb
    simp [pressSubmit, hb]
  · intro cam
    exact ⟨rfl, rfl⟩

/-- Witness for C6 (amended): a press of submit while busy issues no call. -/
theorem c6_amended_single_flight_witness :
    (pressSubmit { roiSha256 := "abc", sev := fun _ => Severity.mild
                 , fitzpatrick := Option.none, ageBand := Option.none, busy := true }
       (NetBehavior.netFail "boom")).calls = [] :=
  c6_amended_single_flight.1
    { roiSha256 := "abc", sev := fun _ => Severity.mild
    , fitzpatrick := Option.none, ageBand := Option.none, busy := true }
    (NetBehavior.netFail "boom") rfl

/-- C7: toggling one consent flag performs the optimistic local update
first and then exactly one upsert call whose body is the full resulting
`Consent` with both flags, the untouched flag keeping exactly its prior
value. -/
theorem c7_consent_toggle :
    ∀ (c : Consent) (v : Bool),
      toggleDonate c v =
        [ConsentAction.localUpdate ⟨c.store_progress_images, v⟩,
         ConsentAction.upsertCall ⟨c.store_progress_images, v⟩]
      ∧ upsertBodies (toggleDonate c v) = [⟨c.store_progress_images, v⟩]
      ∧ toggleStoreProgress c v =
        [ConsentAction.localUpdate ⟨v, c.donate_for_improvement⟩,
         ConsentAction.upsertCall ⟨v, c.donate_for_improvement⟩]
      ∧ upsertBodies (toggleStoreProgress c v) = [⟨v, c.donate_for_improvement⟩] := by
  intro c v
  exact ⟨rfl, rfl, rfl, rfl⟩

/-- C8 counterexample: `deleteProgress` (legacy api.ts variant, the only
variant defining it) issues its request with no headers at all, so an
authenticated delete-progress request goes out without `X-Device-Token`,
refuting "no authenticated request is issued without the device-token
header". -/
theorem c8_counterexample :
    "X-Device-Token" ∉ deleteProgressHeaders.map Prod.fst := by
  simp [deleteProgressHeaders]

/-- C8 amended: in the auth-aware api.ts variant, every authenticated call
(consent upsert, analyze, label submit) attaches `X-Device-Token`, and
`Authorization: Bearer <token>` appears exactly when a non-empty access
token is present; the legacy variant's consent-upsert, analyze and
delete-progress requests carry no device-token header at all. -/
theorem c8_amended_headers :
    ∀ auth : Auth,
      (("X-Device-Token", auth.deviceToken) ∈ upsertConsentHeaders auth)
      ∧ (("X-Device-Token", auth.deviceToken) ∈ analyzeHeaders auth)
      ∧ (("X-Device-Token", auth.deviceToken) ∈ labelSampleHeaders auth)
      ∧ (∀ t, auth.accessToken = some t → t ≠ "" →
          ("Authorization", "Bearer " ++ t) ∈ authHeaders auth)
      ∧ (∀ p ∈ authHeaders auth, p.1 = "Authorization" →
          ∃ t, auth.accessToken = some t ∧ t ≠ "" ∧ p.2 = "Bearer " ++ t)
      ∧ ("X-Device-Token" ∉ legacyUpsertConsentHeaders.map Prod.fst)
      ∧ ("X-Device-Token" ∉ legacyAnalyzeHeaders.map Prod.fst)
      ∧ deleteProgressHeaders = [] := by
  intro auth
  refine ⟨?_, ?_, ?_, ?_, ?_, ?_, ?_, rfl⟩
  · simp [upsertConsentHeaders, authHeaders]
  · simp [analyzeHeaders, authHeaders]
  · simp [labelSampleHeaders, authHeaders]
  · intro t ht hne
    simp [authHeaders, ht, hne]
  · intro p hp hname
    rcases hacc : auth.accessToken with _ | t
    · simp [authHeaders, hacc] at hp
      simp [hp] at hname
    · by_cases hne : t = ""
      · simp [authHeaders, hacc, hne] at hp
        simp [hp] at hname
      · simp [authHeaders, hacc, hne] at hp
        rcases hp with hp | hp
        · simp [hp] at hname
        · exact ⟨t, rfl, hne, by simp [hp]⟩
  · simp [legacyUpsertConsentHeaders]
  · simp [legacyAnalyzeHeaders]

/-- Witness for C8 (amended) at a concrete auth record with an access
token. -/
theorem c8_amended_headers_witness :
    (("X-Device-Token", "dev") ∈ upsertConsentHeaders ⟨"sid", some "tok", "dev"⟩)
    ∧ (("Authorization", "Bearer tok") ∈ authHeaders ⟨"sid", some "tok", "dev"⟩) := by
  have h := c8_amended_headers ⟨"sid", some "tok", "dev"⟩
  exact ⟨h.1, h.2.2.2.1 "tok" rfl (by simp)⟩

/-- C9 counterexample: retake from Review is `() => setScreen("camera")` —
the captured-photo reference is NOT discarded: after the retake step the
controller still holds `photoUri = some "file:photo.jpg"`. -/
theorem c9_counterexample :
    (step { sessionId := "s", consent := ⟨false, false⟩, screen := Screen.review
          , photoUri := some "file:photo.jpg", result := Option.none }
       Ev.retake).screen = Screen.camera
    ∧ (step { sessionId := "s", consent := ⟨false, false⟩, screen := Screen.review
            , photoUri := some "file:photo.jpg", result := Option.none }
        Ev.retake).photoUri = some "file:photo.jpg" := by
  constructor <;> rfl

/-- C9 amended: the retake transition changes only the screen back to
Capture; the stored photo reference (and result) are retained.  The photo
reference is overwritten by the next capture and cleared by new-scan. -/
theorem c9_amended_retake :
    (∀ st : AppState, st.screen = Screen.review → st.photoUri.isSome = true →
        (step st Ev.retake).screen = Screen.camera
        ∧ (step st Ev.retake).photoUri = st.photoUri
        ∧ (step st Ev.retake).result = st.result)
    ∧ (∀ (st : AppState) (uri : String), st.screen = Screen.camera →
        (step st (Ev.captured uri)).photoUri = some uri)
    ∧ (∀ st : AppState, st.screen = Screen.results → st.result.isSome = true →
        (step st Ev.newScan).photoUri = Option.none) := by
  refine ⟨?_, ?_, ?_⟩
  · intro st h1 h2
    refine ⟨?_, ?_, ?_⟩ <;> simp [step, h1, h2]
  · intro st uri h1
    simp [step, h1]
  · intro st h1 h2
    simp [step, h1, h2]

/-- Witness for C9 (amended) at a concrete review state. -/
theorem c9_amended_retake_witness :
    (step { sessionId := "s", consent := ⟨false, false⟩, screen := Screen.review
          , photoUri := some "p", result := Option.none }
       Ev.retake).photoUri = some "p" :=
  (c9_amended_retake.1
    { sessionId := "s", consent := ⟨false, false⟩, screen := Screen.review
    , photoUri := some "p", result := Option.none }
    rfl rfl).2.1

/-- C10: every label payload actually handed to the network is the one
built by `submit`; its serialized JSON body always contains `roi_sha256`
and `labels`, contains `fitzpatrick`/`age_band` exactly when the user
selected a value, and no serialized property carries `undefined` — an
unselected demographic is omitted entirely, never sent as null. -/
theorem c10_payload_serialization :
    ∀ (st : LabelScreenState) (net : NetBehavior) (p : LabelPayload),
      p ∈ (submit st net).calls →
      p = mkPayload st
      ∧ (serializedPayload p =
          [ ("roi_sha256", JsValue.str p.roi_sha256)
          , ("labels", JsValue.obj (p.labels.map (fun l => (attrKeyName l.1, l.2)))) ]
          ++ (match p.fitzpatrick with
              | some f => [("fitzpatrick", JsValue.str (fitzName f))]
              | Option.none => [])
          ++ (match p.age_band with
              | some a => [("age_band", JsValue.str (ageBandName a))]
              | Option.none => []))
      ∧ ("roi_sha256" ∈ (serializedPayload p).map Prod.fst)
      ∧ ("labels" ∈ (serializedPayload p).map Prod.fst)
      ∧ ("fitzpatrick" ∈ (serializedPayload p).map Prod.fst ↔ p.fitzpatrick.isSome = true)
      ∧ ("age_band" ∈ (serializedPayload p).map Prod.fst ↔ p.age_band.isSome = true)
      ∧ (∀ kv ∈ serializedPayload p, kv.2.isUndef = false) := by
  intro st net p hp
  have hmk : p = mkPayload st := by
    by_cases h1 : st.roiSha256 = ""
    · simp [submit, h1] at hp
    · by_cases h2 : sparseLabels st.sev = []
      · simp [submit, h1, h2] at hp
      · cases net with
        | netFail msg => simpa [submit, h1, h2] using hp
        | respond r =>
            rcases hls : labelSample r with msg | body
            · simpa [submit, h1, h2, hls] using hp
            · by_cases hs : body.stored <;>
                simpa [submit, h1, h2, hls, hs] using hp
  refine ⟨hmk, ?_, ?_, ?_, ?_, ?_, ?_⟩ <;>
    rcases hf : p.fitzpatrick with _ | f <;> rcases ha : p.age_band with _ | a <;>
      simp [serializedPayload, payloadObject, JsValue.isUndef, hf, ha]

/-- Witness for C10 at a concrete issued submission with a selected
Fitzpatrick value and no age band. -/
theorem c10_payload_serialization_witness :
    mkPayload { roiSha256 := "abc", sev := fun _ => Severity.severe
              , fitzpatrick := some Fitzpatrick.III, ageBand := Option.none
              , busy := false }
      = mkPayload { roiSha256 := "abc", sev := fun _ => Severity.severe
                  , fitzpatrick := some Fitzpatrick.III, ageBand := Option.none
                  , busy := false }
    ∧ ("age_band" ∈ (serializedPayload
        (mkPayload { roiSha256 := "abc", sev := fun _ => Severity.severe
                   , fitzpatrick := some Fitzpatrick.III, ageBand := Option.none
                   , busy := false })).map Prod.fst ↔ False) := by
  have h := c10_payload_serialization
    { roiSha256 := "abc", sev := fun _ => Severity.severe
    , fitzpatrick := some Fitzpatrick.III, ageBand := Option.none, busy := false }
    (NetBehavior.netFail "boom")
    (mkPayload { roiSha256 := "abc", sev := fun _ => Severity.severe
               , fitzpatrick := some Fitzpatrick.III, ageBand := Option.none
               , busy := false })
    (by simp [submit, sparseLabels, ATTRS, sevToValue])
  refine ⟨h.1, ?_⟩
  rw [h.2.2.2.2.2.1]
  simp [mkPayload]

end SkinGuide
